import Mathlib

/-!
Verification of the document-operation core of the `arangors` collection
client (`src/collection/mod.rs`) against its natural-language specification.

The shallow embedding below translates the Rust code into Lean:
pure functions become Lean functions, the HTTP session becomes an oracle
`HttpRequest → Except ClientError WireResponse`, operations that perform a
transport call become programs in a small free monad `ClientM`, and Rust
panics (`unwrap` on `Err`/`None`) become an explicit `panicked` outcome.
Machine strings stay Lean `String`s; HTTP header byte-validity is modelled
on the characters of the string (UTF-8 bytes of characters above 127 are
always valid header-value bytes, so the character-level check coincides
with the byte-level check of the `http` crate).

Parts of the repository that the claims depend on but that are not part of
the two given source files (the option structs of `crate::document`, the
`DocumentResponse` shape and the response interpreter
`crate::response::deserialize_response`) are modelled from the spec; each
such definition carries a doc comment starting with `Modelled from the
spec:`.
-/

set_option autoImplicit false

namespace Arangors

/-- A JSON value, the wire body format. `serde_json` serialization is
modelled as the identity on this type: two bodies are equal exactly when
their serializations are. -/
inductive Json where
  | null
  | bool (b : Bool)
  | num (n : Int)
  | str (s : String)
  | arr (elems : List Json)
  | obj (fields : List (String × Json))

/-- Field lookup in a JSON object field list (first match wins), as serde
maps do. -/
def lookupStr : List (String × Json) → String → Option Json
  | [], _ => none
  | (k, v) :: rest, key => if k = key then some v else lookupStr rest key

/-- Field lookup on a JSON value: only objects have fields. -/
def Json.getField (j : Json) (key : String) : Option Json :=
  match j with
  | .obj fields => lookupStr fields key
  | _ => none

def Json.asStr : Json → Option String
  | .str s => some s
  | _ => none

def Json.asInt : Json → Option Int
  | .num n => some n
  | _ => none

def Json.asNat : Json → Option Nat
  | .num n => if n < 0 then none else some n.toNat
  | _ => none

/-- The outcome of a Rust `unwrap` on an empty value: a panic. -/
inductive RustPanic where
  | panicked
deriving DecidableEq

/-- `Option.unwrap` of Rust: `None.unwrap()` panics. -/
def unwrapO {α : Type} : Option α → Except RustPanic α
  | some a => Except.ok a
  | none => Except.error RustPanic.panicked

/-- HTTP methods used by the document operations (plus `HEAD`, which the
spec mentions for the header read). -/
inductive Method where
  | GET | HEAD | POST | PUT | PATCH | DELETE
deriving DecidableEq

/-- The two HTTP header names this module ever builds. `http::HeaderName`
stores a canonical (case-insensitively compared) name, which we model as a
closed enumeration since only these two names occur in the source. -/
inductive HeaderName where
  | IfMatch
  | IfNoneMatch
deriving DecidableEq

/-- ASCII lower-casing of one character, as the `http` crate canonicalizes
header names. -/
def asciiLowerChar (c : Char) : Char :=
  if 65 ≤ c.toNat ∧ c.toNat ≤ 90 then Char.ofNat (c.toNat + 32) else c

/-- ASCII lower-casing of a string. -/
def asciiLower (s : String) : String :=
  ⟨s.data.map asciiLowerChar⟩

/-- `http::HeaderName` parsing, restricted to the two names the source
parses: case-insensitive recognition, `None` otherwise. -/
def headerNameFromStr (s : String) : Option HeaderName :=
  if asciiLower s = "if-match" then some HeaderName.IfMatch
  else if asciiLower s = "if-none-match" then some HeaderName.IfNoneMatch
  else none

/-- Validity of one character of a header value, per the `http` crate:
a byte is valid iff it is horizontal tab or at least 32 and not 127.
Characters above 127 encode to UTF-8 bytes that are all at least 128 and
hence valid, so the character-level check matches the byte-level check. -/
def validHeaderValueChar (c : Char) : Bool :=
  128 ≤ c.toNat || c.toNat == 9 || (decide (32 ≤ c.toNat) && c.toNat != 127)

/-- A string is a valid header value iff all its bytes are valid. -/
def isValidHeaderValue (s : String) : Bool :=
  s.data.all validHeaderValueChar

/-- `http::HeaderValue::try_from` on a string: the value is passed through
verbatim when every byte is valid, and rejected otherwise. -/
def headerValueTryFrom (s : String) : Option String :=
  if isValidHeaderValue s then some s else none

/-- The read-time conditional choice (`crate::document::DocumentReadOptions`):
a tagged choice among if-match, if-none-match, and no header. The three
variants are exactly the ones matched in `make_header_from_options`. -/
inductive DocumentReadOptions where
  | IfNoneMatch (value : String)
  | IfMatch (value : String)
  | NoHeader

/-- Embedding of `make_header_from_options` (src/collection/mod.rs,
lines 646-662): create header name and header value from read options.
The source unwraps both the parsed header name and the converted header
value, so a revision string that is not a valid header value panics. -/
def make_header_from_options (document_read_options : DocumentReadOptions) :
    Except RustPanic (Option (HeaderName × String)) :=
  match document_read_options with
  | .IfNoneMatch value => do
      let name ← unwrapO (headerNameFromStr "If-None-Match")
      let hv ← unwrapO (headerValueTryFrom value)
      pure (some (name, hv))
  | .IfMatch value => do
      let name ← unwrapO (headerNameFromStr "If-Match")
      let hv ← unwrapO (headerValueTryFrom value)
      pure (some (name, hv))
  | .NoHeader => pure none

/-- Modelled from the spec: the overwrite-mode enumeration
(`crate::document::DocumentOverwriteMode`, not among the given source
files). Conflict is the documented server default. -/
inductive DocumentOverwriteMode where
  | Conflict
  | Ignore
  | Replace
  | Update
deriving DecidableEq

/-- Wire encoding of an overwrite mode (query values per spec section 6). -/
def overwriteModeStr : DocumentOverwriteMode → String
  | .Conflict => "conflict"
  | .Ignore => "ignore"
  | .Replace => "replace"
  | .Update => "update"

/-- Wire encoding of a boolean query value. -/
def boolStr : Bool → String
  | true => "true"
  | false => "false"

/-- Modelled from the spec: `crate::document::DocumentInsertOptions` (not
among the given source files). Every field is optional; an unset field
means the documented server default. -/
structure DocumentInsertOptions where
  wait_for_sync : Option Bool := none
  return_new : Option Bool := none
  return_old : Option Bool := none
  silent : Option Bool := none
  overwrite : Option Bool := none
  overwrite_mode : Option DocumentOverwriteMode := none
deriving DecidableEq

/-- Modelled from the spec: `crate::document::DocumentUpdateOptions`. The
documented server defaults are `ignoreRevs = keepNull = mergeObjects =
true` and `false` for the other flags. -/
structure DocumentUpdateOptions where
  wait_for_sync : Option Bool := none
  return_new : Option Bool := none
  return_old : Option Bool := none
  silent : Option Bool := none
  ignore_revs : Option Bool := none
  keep_null : Option Bool := none
  merge_objects : Option Bool := none
deriving DecidableEq

/-- Modelled from the spec: `crate::document::DocumentReplaceOptions`. -/
structure DocumentReplaceOptions where
  wait_for_sync : Option Bool := none
  return_new : Option Bool := none
  return_old : Option Bool := none
  silent : Option Bool := none
  ignore_revs : Option Bool := none
deriving DecidableEq

/-- Modelled from the spec: `crate::document::DocumentRemoveOptions`. -/
structure DocumentRemoveOptions where
  wait_for_sync : Option Bool := none
  return_old : Option Bool := none
  silent : Option Bool := none
deriving DecidableEq

/-- Modelled from the spec: one boolean field of an option struct rendered
into the query string. A field is emitted exactly when it is set to a
value that differs from the documented server default (absent and default
fields are omitted, spec sections 4.1 and 4.3). -/
def emitBool (key : String) (dflt : Bool) : Option Bool → List (String × String)
  | none => []
  | some b => if b = dflt then [] else [(key, boolStr b)]

/-- Modelled from the spec: the overwrite-mode field rendered into the
query string; enumerations only emit the query key when non-default. -/
def emitMode : Option DocumentOverwriteMode → List (String × String)
  | none => []
  | some m => if m = DocumentOverwriteMode.Conflict then [] else [("overwriteMode", overwriteModeStr m)]

/-- Modelled from the spec: `serde_qs::to_string` on insert options, as a
key/value list (the query string joins the pairs with `&` and `=`). -/
def qsInsert (o : DocumentInsertOptions) : List (String × String) :=
  emitBool "waitForSync" false o.wait_for_sync ++
  emitBool "returnNew" false o.return_new ++
  emitBool "returnOld" false o.return_old ++
  emitBool "silent" false o.silent ++
  emitBool "overwrite" false o.overwrite ++
  emitMode o.overwrite_mode

/-- Modelled from the spec: `serde_qs::to_string` on update options. -/
def qsUpdate (o : DocumentUpdateOptions) : List (String × String) :=
  emitBool "waitForSync" false o.wait_for_sync ++
  emitBool "returnNew" false o.return_new ++
  emitBool "returnOld" false o.return_old ++
  emitBool "silent" false o.silent ++
  emitBool "ignoreRevs" true o.ignore_revs ++
  emitBool "keepNull" true o.keep_null ++
  emitBool "mergeObjects" true o.merge_objects

/-- Modelled from the spec: `serde_qs::to_string` on replace options. -/
def qsReplace (o : DocumentReplaceOptions) : List (String × String) :=
  emitBool "waitForSync" false o.wait_for_sync ++
  emitBool "returnNew" false o.return_new ++
  emitBool "returnOld" false o.return_old ++
  emitBool "silent" false o.silent ++
  emitBool "ignoreRevs" true o.ignore_revs

/-- Modelled from the spec: `serde_qs::to_string` on remove options. -/
def qsRemove (o : DocumentRemoveOptions) : List (String × String) :=
  emitBool "waitForSync" false o.wait_for_sync ++
  emitBool "returnOld" false o.return_old ++
  emitBool "silent" false o.silent

/-- One field descriptor for the claim-side query characterization: query
key, the field's wire value when the field was set, and the wire value of
the documented server default. -/
abbrev FieldDesc := String × Option String × String

/-- The claim-side reading of the query contract: the query contains
exactly the fields whose values differ from the documented server
defaults, mapped one-to-one to their query keys; default-valued and absent
fields are omitted. -/
def nonDefaultFields (fields : List FieldDesc) : List (String × String) :=
  fields.filterMap (fun f =>
    match f.2.1 with
    | none => none
    | some v => if v = f.2.2 then none else some (f.1, v))

/-- The insert-option field table: each field with its query key, wire
value, and documented default. -/
def insertFieldTable (o : DocumentInsertOptions) : List FieldDesc :=
  [("waitForSync", o.wait_for_sync.map boolStr, "false"),
   ("returnNew", o.return_new.map boolStr, "false"),
   ("returnOld", o.return_old.map boolStr, "false"),
   ("silent", o.silent.map boolStr, "false"),
   ("overwrite", o.overwrite.map boolStr, "false"),
   ("overwriteMode", o.overwrite_mode.map overwriteModeStr, "conflict")]

/-- The update-option field table. -/
def updateFieldTable (o : DocumentUpdateOptions) : List FieldDesc :=
  [("waitForSync", o.wait_for_sync.map boolStr, "false"),
   ("returnNew", o.return_new.map boolStr, "false"),
   ("returnOld", o.return_old.map boolStr, "false"),
   ("silent", o.silent.map boolStr, "false"),
   ("ignoreRevs", o.ignore_revs.map boolStr, "true"),
   ("keepNull", o.keep_null.map boolStr, "true"),
   ("mergeObjects", o.merge_objects.map boolStr, "true")]

/-- The replace-option field table. -/
def replaceFieldTable (o : DocumentReplaceOptions) : List FieldDesc :=
  [("waitForSync", o.wait_for_sync.map boolStr, "false"),
   ("returnNew", o.return_new.map boolStr, "false"),
   ("returnOld", o.return_old.map boolStr, "false"),
   ("silent", o.silent.map boolStr, "false"),
   ("ignoreRevs", o.ignore_revs.map boolStr, "true")]

/-- The remove-option field table. -/
def removeFieldTable (o : DocumentRemoveOptions) : List FieldDesc :=
  [("waitForSync", o.wait_for_sync.map boolStr, "false"),
   ("returnOld", o.return_old.map boolStr, "false"),
   ("silent", o.silent.map boolStr, "false")]

/-- The error taxonomy of the client (spec section 7): transport failure,
malformed response body, the two distinguished precondition statuses, the
structured server error, and serialization failure. -/
inductive ClientError where
  | Transport (message : String)
  | MalformedResponse
  | PreconditionFailed
  | NotFound
  | ServerError (code : Nat) (message : String)
  | Serialization
deriving DecidableEq

/-- A wire response: a status code and a raw body. `none` stands for a
body that is not JSON at all. -/
structure WireResponse where
  status : Nat
  body : Option Json

/-- An HTTP-like wire request: method, resolved URL, query key/value
pairs, typed headers, and an optional JSON body (`none` is the empty
body). -/
structure HttpRequest where
  method : Method
  url : String
  query : List (String × String)
  headers : List (HeaderName × String)
  body : Option Json

/-- The document header triple returned by metadata-only reads. -/
structure DocumentHeader where
  _id : String
  _key : String
  _rev : String
deriving DecidableEq

/-- A document: the user payload plus the three system attributes when
present at the top level. (`Document<T>` with the payload kept as JSON.) -/
structure ADocument where
  header : Option DocumentHeader
  document : Json

/-- Modelled from the spec: `crate::document::DocumentResponse` (not among
the given source files), the tagged result of a write operation — silent
acknowledgment, or a verbose result whose header may be absent under some
overwrite modes and whose old/new snapshots are present only when
requested. -/
inductive DocumentResponse where
  | Silent
  | Response (header : Option DocumentHeader) (old : Option ADocument) (new : Option ADocument)

/-- The `is_silent` accessor used by the tests. -/
def DocumentResponse.is_silent : DocumentResponse → Bool
  | .Silent => true
  | .Response _ _ _ => false

/-- The `has_response` accessor used by the tests. -/
def DocumentResponse.has_response : DocumentResponse → Bool
  | .Silent => false
  | .Response _ _ _ => true

/-- The `get_response` accessor used by the tests: the verbose fields, or
nothing in silent mode. -/
def DocumentResponse.get_response :
    DocumentResponse → Option (Option DocumentHeader × Option ADocument × Option ADocument)
  | .Silent => none
  | .Response h o n => some (h, o, n)

/-- The server error envelope `{errorNum, errorMessage, code}`. -/
structure ErrorEnvelope where
  errorNum : Int
  errorMessage : String
  code : Nat
deriving DecidableEq

/-- Parse a wire body as a server error envelope; fails when the body is
not JSON or lacks one of the three fields. -/
def parseErrorEnvelope (body : Option Json) : Option ErrorEnvelope := do
  let j ← body
  let n ← (← j.getField "errorNum").asInt
  let m ← (← j.getField "errorMessage").asStr
  let c ← (← j.getField "code").asNat
  pure ⟨n, m, c⟩

/-- Modelled from the spec: classification of a structured failure
(section 4.4 step 1). The body is parsed as an error envelope; status 412
maps to `PreconditionFailed`, 404 to `NotFound`, other statuses to
`ServerError(code, message)`; a body that cannot be parsed as an error
envelope surfaces `MalformedResponse`. -/
def classifyFailure (status : Nat) (body : Option Json) : ClientError :=
  match parseErrorEnvelope body with
  | none => ClientError.MalformedResponse
  | some env =>
    if status = 412 then ClientError.PreconditionFailed
    else if status = 404 then ClientError.NotFound
    else ClientError.ServerError env.code env.errorMessage

/-- Extract the optional header triple from a JSON object field list. -/
def parseHeaderFields (fields : List (String × Json)) : Option DocumentHeader := do
  let i ← (← lookupStr fields "_id").asStr
  let k ← (← lookupStr fields "_key").asStr
  let r ← (← lookupStr fields "_rev").asStr
  pure ⟨i, k, r⟩

/-- Parse a JSON value as a document: the payload is the value itself and
the header triple is extracted opportunistically. -/
def parseDocJson (j : Json) : Option ADocument :=
  match j with
  | .obj fields => some ⟨parseHeaderFields fields, j⟩
  | _ => none

/-- Modelled from the spec: the general (non-silent) write response shape
(section 4.4 step 3) — header, old and new are each independently
optional; absence means the field was not requested. -/
def parseWriteBody (body : Option Json) : Option DocumentResponse := do
  let j ← body
  match j with
  | .obj fields =>
      some (DocumentResponse.Response (parseHeaderFields fields)
        ((lookupStr fields "old").bind parseDocJson)
        ((lookupStr fields "new").bind parseDocJson))
  | _ => none

/-- Modelled from the spec: `crate::response::deserialize_response` (not
among the given source files) for write operations, per spec section 4.4:
a status of at least 400 is a structured failure; otherwise silent mode
returns the Silent variant with no further parsing; otherwise the body is
parsed as the general response shape, and a body matching no expected
shape is a `MalformedResponse`. -/
def deserializeWrite (silent : Bool) (r : WireResponse) : Except ClientError DocumentResponse :=
  if 400 ≤ r.status then Except.error (classifyFailure r.status r.body)
  else if silent then Except.ok DocumentResponse.Silent
  else
    match parseWriteBody r.body with
    | some dr => Except.ok dr
    | none => Except.error ClientError.MalformedResponse

/-- Modelled from the spec: the response interpreter for a full document
read — failure classification as for writes, otherwise the body is parsed
as a document. -/
def deserializeRead (r : WireResponse) : Except ClientError ADocument :=
  if 400 ≤ r.status then Except.error (classifyFailure r.status r.body)
  else
    match r.body.bind parseDocJson with
    | some d => Except.ok d
    | none => Except.error ClientError.MalformedResponse

/-- Modelled from the spec: the response interpreter for a header-only
read — failure classification as for writes, otherwise the body must
carry the three header attributes. -/
def deserializeHeader (r : WireResponse) : Except ClientError DocumentHeader :=
  if 400 ≤ r.status then Except.error (classifyFailure r.status r.body)
  else
    match r.body with
    | some (Json.obj fields) =>
        match parseHeaderFields fields with
        | some h => Except.ok h
        | none => Except.error ClientError.MalformedResponse
    | _ => Except.error ClientError.MalformedResponse

/-- Modelled from the spec: the collection info returned by collection
administration calls such as `rename` (`CollectionInfo`, not among the
given source files); only the fields the claims need. -/
structure CollectionInfo where
  id : String
  name : String
deriving DecidableEq

/-- Modelled from the spec: `deserialize_response` at `CollectionInfo`. -/
def deserializeCollectionInfo (r : WireResponse) : Except ClientError CollectionInfo :=
  if 400 ≤ r.status then Except.error (classifyFailure r.status r.body)
  else
    match r.body with
    | some j =>
        match (j.getField "id").bind Json.asStr, (j.getField "name").bind Json.asStr with
        | some i, some n => Except.ok ⟨i, n⟩
        | _, _ => Except.error ClientError.MalformedResponse
    | none => Except.error ClientError.MalformedResponse

/-- The collection type (document or edge). -/
inductive CollectionType where
  | Document
  | Edge
deriving DecidableEq

/-- Embedding of `Collection` (src/collection/mod.rs, lines 31-66): the
identifier, the (renamable) name, the type, the two resolved base URLs,
and — externally — the shared session, which the embedding passes as a
transport oracle instead of storing it. -/
structure Collection where
  id : String
  name : String
  collection_type : CollectionType
  base_url : String
  document_base_url : String

/-- Embedding of `Collection::new` (src/collection/mod.rs, lines 72-92):
both base URLs are resolved from the database URL (which ends in a slash)
by appending the API path and the collection name. -/
def Collection.new (database_url : String) (name : String) (id : String)
    (collection_type : CollectionType) : Collection :=
  { id := id
    name := name
    collection_type := collection_type
    base_url := database_url ++ "_api/collection/" ++ name ++ "/"
    document_base_url := database_url ++ "_api/document/" ++ name ++ "/" }

/-- A client program: either a finished value, one transport call followed
by a continuation on the transport outcome, or a Rust panic. Every
operation of the façade is one such program; the transport itself is an
oracle supplied at run time. -/
inductive ClientM (α : Type) where
  | pure (a : α)
  | call (req : HttpRequest) (k : Except ClientError WireResponse → ClientM α)
  | panicked

/-- The transport: an oracle answering one wire request with either a
client error (network failure and the like, the `?` on the session call)
or a wire response. -/
abbrev Transport := HttpRequest → Except ClientError WireResponse

/-- Run a client program against a transport oracle; a panicked program
produces no value. -/
def ClientM.run {α : Type} : ClientM α → Transport → Option α
  | .pure a, _ => some a
  | .call req k, transport => (k (transport req)).run transport
  | .panicked, _ => none

/-- The number of transport calls a program performs when run against a
given oracle. -/
def ClientM.requestCount {α : Type} : ClientM α → Transport → Nat
  | .pure _, _ => 0
  | .call req k, transport => 1 + (k (transport req)).requestCount transport
  | .panicked, _ => 0

/-- Whether a program panics before doing anything. -/
def ClientM.isPanicked {α : Type} : ClientM α → Bool
  | .panicked => true
  | _ => false

/-- The first wire request a program issues, if any. -/
def ClientM.requestOf {α : Type} : ClientM α → Option HttpRequest
  | .pure _ => none
  | .call req _ => some req
  | .panicked => none

/-- A transport oracle that answers every request with the same wire
response. -/
def constTransport (status : Nat) (body : Option Json) : Transport :=
  fun _ => Except.ok ⟨status, body⟩

/-- The effective silent flag of insert options (unset means the server
default, false). -/
def DocumentInsertOptions.silentFlag (o : DocumentInsertOptions) : Bool :=
  o.silent.getD false

/-- The effective silent flag of update options. -/
def DocumentUpdateOptions.silentFlag (o : DocumentUpdateOptions) : Bool :=
  o.silent.getD false

/-- The effective silent flag of replace options. -/
def DocumentReplaceOptions.silentFlag (o : DocumentReplaceOptions) : Bool :=
  o.silent.getD false

/-- The effective silent flag of remove options. -/
def DocumentRemoveOptions.silentFlag (o : DocumentRemoveOptions) : Bool :=
  o.silent.getD false

/-- The wire request built by `create_document` (src/collection/mod.rs,
lines 429-445): POST to the document base URL (join with the empty
segment), query from the insert options, body the serialized payload. -/
def createDocRequest (c : Collection) (doc : Json) (o : DocumentInsertOptions) : HttpRequest :=
  { method := Method.POST
    url := c.document_base_url
    query := qsInsert o
    headers := []
    body := some doc }

/-- Embedding of `create_document`: build the request, one transport
call, interpret the response. -/
def create_document (c : Collection) (doc : Json) (insert_options : DocumentInsertOptions) :
    ClientM (Except ClientError DocumentResponse) :=
  ClientM.call (createDocRequest c doc insert_options) (fun out =>
    ClientM.pure (match out with
      | .error e => Except.error e
      | .ok resp => deserializeWrite insert_options.silentFlag resp))

/-- The wire request built by `read_document_with_options`
(src/collection/mod.rs, lines 461-480): GET on the joined document URL
with the optional conditional header; the header resolver may panic. -/
def readDocRequest (c : Collection) (key : String) (o : DocumentReadOptions) :
    Except RustPanic HttpRequest := do
  let header ← make_header_from_options o
  pure { method := Method.GET
         url := c.document_base_url ++ key
         query := []
         headers := header.toList
         body := none }

/-- Embedding of `read_document_with_options`. -/
def read_document_with_options (c : Collection) (key : String)
    (read_options : DocumentReadOptions) : ClientM (Except ClientError ADocument) :=
  match readDocRequest c key read_options with
  | .error _ => ClientM.panicked
  | .ok req =>
      ClientM.call req (fun out =>
        ClientM.pure (match out with
          | .error e => Except.error e
          | .ok resp => deserializeRead resp))

/-- Embedding of `read_document` (src/collection/mod.rs, lines 452-459):
delegate with the default read options. Modelled from the spec: the
`Default` of `DocumentReadOptions` is the no-header choice. -/
def read_document (c : Collection) (key : String) : ClientM (Except ClientError ADocument) :=
  read_document_with_options c key DocumentReadOptions.NoHeader

/-- The wire request built by `read_document_header_with_options`
(src/collection/mod.rs, lines 492-508). The source constructs it with
`Request::get`, so the method is GET. -/
def readDocHeaderRequest (c : Collection) (key : String) (o : DocumentReadOptions) :
    Except RustPanic HttpRequest := do
  let header ← make_header_from_options o
  pure { method := Method.GET
         url := c.document_base_url ++ key
         query := []
         headers := header.toList
         body := none }

/-- Embedding of `read_document_header_with_options`. -/
def read_document_header_with_options (c : Collection) (key : String)
    (read_options : DocumentReadOptions) : ClientM (Except ClientError DocumentHeader) :=
  match readDocHeaderRequest c key read_options with
  | .error _ => ClientM.panicked
  | .ok req =>
      ClientM.call req (fun out =>
        ClientM.pure (match out with
          | .error e => Except.error e
          | .ok resp => deserializeHeader resp))

/-- Embedding of `read_document_header` (src/collection/mod.rs, lines
487-490): delegate with the default read options. -/
def read_document_header (c : Collection) (key : String) :
    ClientM (Except ClientError DocumentHeader) :=
  read_document_header_with_options c key DocumentReadOptions.NoHeader

/-- The wire request built by `update_document` (src/collection/mod.rs,
lines 510-528): PATCH on the joined document URL, query from the update
options, body exactly the serialized patch argument. -/
def updateDocRequest (c : Collection) (key : String) (doc : Json)
    (o : DocumentUpdateOptions) : HttpRequest :=
  { method := Method.PATCH
    url := c.document_base_url ++ key
    query := qsUpdate o
    headers := []
    body := some doc }

/-- Embedding of `update_document`. -/
def update_document (c : Collection) (key : String) (doc : Json)
    (update_options : DocumentUpdateOptions) : ClientM (Except ClientError DocumentResponse) :=
  ClientM.call (updateDocRequest c key doc update_options) (fun out =>
    ClientM.pure (match out with
      | .error e => Except.error e
      | .ok resp => deserializeWrite update_options.silentFlag resp))

/-- The wire request built by `replace_document` (src/collection/mod.rs,
lines 573-600): PUT with the serialized payload; the `If-Match` header is
added exactly when the explicit argument is present, and the request
builder's deferred unwrap panics when that value is not a valid header
value. -/
def replaceDocRequest (c : Collection) (key : String) (doc : Json)
    (o : DocumentReplaceOptions) (if_match_header : Option String) :
    Except RustPanic HttpRequest := do
  let headers ← match if_match_header with
    | some v => do
        let name ← unwrapO (headerNameFromStr "If-Match")
        let hv ← unwrapO (headerValueTryFrom v)
        pure [(name, hv)]
    | none => pure []
  pure { method := Method.PUT
         url := c.document_base_url ++ key
         query := qsReplace o
         headers := headers
         body := some doc }

/-- Embedding of `replace_document`. -/
def replace_document (c : Collection) (key : String) (doc : Json)
    (replace_options : DocumentReplaceOptions) (if_match_header : Option String) :
    ClientM (Except ClientError DocumentResponse) :=
  match replaceDocRequest c key doc replace_options if_match_header with
  | .error _ => ClientM.panicked
  | .ok req =>
      ClientM.call req (fun out =>
        ClientM.pure (match out with
          | .error e => Except.error e
          | .ok resp => deserializeWrite replace_options.silentFlag resp))

/-- The wire request built by `remove_document` (src/collection/mod.rs,
lines 617-642): DELETE with the empty body; the `If-Match` header is added
exactly when the explicit argument is present. -/
def removeDocRequest (c : Collection) (key : String)
    (o : DocumentRemoveOptions) (if_match_header : Option String) :
    Except RustPanic HttpRequest := do
  let headers ← match if_match_header with
    | some v => do
        let name ← unwrapO (headerNameFromStr "If-Match")
        let hv ← unwrapO (headerValueTryFrom v)
        pure [(name, hv)]
    | none => pure []
  pure { method := Method.DELETE
         url := c.document_base_url ++ key
         query := qsRemove o
         headers := headers
         body := none }

/-- Embedding of `remove_document`. -/
def remove_document (c : Collection) (key : String)
    (remove_options : DocumentRemoveOptions) (if_match_header : Option String) :
    ClientM (Except ClientError DocumentResponse) :=
  match removeDocRequest c key remove_options if_match_header with
  | .error _ => ClientM.panicked
  | .ok req =>
      ClientM.call req (fun out =>
        ClientM.pure (match out with
          | .error e => Except.error e
          | .ok resp => deserializeWrite remove_options.silentFlag resp))

/-- The wire request built by `rename` (src/collection/mod.rs, lines
348-360): PUT on the collection base URL joined with `rename`, body
`{"name": <new name>}`. -/
def renameRequest (c : Collection) (name : String) : HttpRequest :=
  { method := Method.PUT
    url := c.base_url ++ "rename"
    query := []
    headers := []
    body := some (Json.obj [("name", Json.str name)]) }

/-- Embedding of `rename` (src/collection/mod.rs, lines 348-360): the
transport call and the deserialization both propagate failure with `?`
before `self.name` is assigned, so the stored name changes only after the
response deserializes successfully. The mutated collection is returned
alongside the result. -/
def rename (c : Collection) (name : String) :
    ClientM (Collection × Except ClientError CollectionInfo) :=
  ClientM.call (renameRequest c name) (fun out =>
    ClientM.pure (match out with
      | .error e => (c, Except.error e)
      | .ok resp =>
        match deserializeCollectionInfo resp with
        | .error e => (c, Except.error e)
        | .ok info => ({ c with name := name }, Except.ok info)))

/-- The outcome of running `rename`, with the (unreachable) panic default
making the result total: the possibly-renamed collection and the call
result. -/
def renameRun (c : Collection) (name : String) (transport : Transport) :
    Collection × Except ClientError CollectionInfo :=
  ((rename c name).run transport).getD (c, Except.error ClientError.MalformedResponse)

/-- Whether the revision string carried by a read option (if any) is a
valid header value. -/
def readOptionsRevValid : DocumentReadOptions → Bool
  | .IfMatch v => isValidHeaderValue v
  | .IfNoneMatch v => isValidHeaderValue v
  | .NoHeader => true

/-- Extract the value of a non-panicking computation, with a default for
the panic case. -/
def okOr {α : Type} (e : Except RustPanic α) (d : α) : α :=
  match e with
  | .ok a => a
  | .error _ => d

/-- A placeholder request, used only as the `okOr` default where a build
is known not to panic. -/
def fallbackRequest : HttpRequest :=
  { method := Method.GET, url := "", query := [], headers := [], body := none }

/-- The header list determined by the explicit `If-Match` argument of
`replace_document` and `remove_document`: the single `If-Match` pair when
the argument is present, no headers otherwise. -/
def ifMatchHeaders : Option String → List (HeaderName × String)
  | some v => [(HeaderName.IfMatch, v)]
  | none => []

/-- A concrete collection handle for evaluating the operations. -/
def sampleColl : Collection :=
  Collection.new "http://localhost:8529/_db/test_db/" "test_collection" "9999"
    CollectionType.Document

/-- A concrete server error envelope body (a 404 document-not-found). -/
def sampleEnvelope : Json :=
  Json.obj [("error", Json.bool true), ("errorNum", Json.num 1202),
            ("errorMessage", Json.str "document not found"), ("code", Json.num 404)]

/-!
## Theorems
-/

/-- Claim C2, counterexample: the resolver does not return a header pair
for every read option — at `IfMatch "\n"` the revision is not a valid
header value, `HeaderValue::try_from` fails and the `unwrap` panics, so no
pair is returned for this concrete input. -/
theorem make_header_panics_on_newline_rev :
    make_header_from_options (DocumentReadOptions.IfMatch "\n") =
      Except.error RustPanic.panicked := by
  rfl

/-- Helper: the full behaviour of the resolver on a valid revision token,
shared by the statements about claims C2 and C3. -/
theorem make_header_eq_of_valid (rev : String)
    (h : isValidHeaderValue rev = true) :
    make_header_from_options (DocumentReadOptions.IfMatch rev) =
      Except.ok (some (HeaderName.IfMatch, rev)) ∧
    make_header_from_options (DocumentReadOptions.IfNoneMatch rev) =
      Except.ok (some (HeaderName.IfNoneMatch, rev)) ∧
    make_header_from_options DocumentReadOptions.NoHeader = Except.ok none := by
  have hn : headerNameFromStr "If-Match" = some HeaderName.IfMatch := by decide
  have hn2 : headerNameFromStr "If-None-Match" = some HeaderName.IfNoneMatch := by decide
  have hv : headerValueTryFrom rev = some rev := by
    simp [headerValueTryFrom, h]
  refine ⟨?_, ?_, rfl⟩ <;>
    simp [make_header_from_options, hn, hn2, hv, unwrapO, Except.bind, bind, pure,
      Except.pure]

/-- Claim C2 (amended): for every read option whose revision token is a
valid header value, `make_header_from_options` returns the `If-Match`
header pair for `IfMatch(rev)`, the `If-None-Match` pair for
`IfNoneMatch(rev)`, and no header for the no-header choice, passing the
revision token through verbatim. -/
theorem make_header_maps_conditional_choice (rev : String)
    (h : isValidHeaderValue rev = true) :
    make_header_from_options (DocumentReadOptions.IfMatch rev) =
      Except.ok (some (HeaderName.IfMatch, rev)) ∧
    make_header_from_options (DocumentReadOptions.IfNoneMatch rev) =
      Except.ok (some (HeaderName.IfNoneMatch, rev)) ∧
    make_header_from_options DocumentReadOptions.NoHeader = Except.ok none :=
  make_header_eq_of_valid rev h

/-- Claim C2, witness for the amended theorem at a concrete revision. -/
theorem make_header_maps_conditional_choice_witness :
    isValidHeaderValue "_ZxY20a--" = true ∧
    make_header_from_options (DocumentReadOptions.IfMatch "_ZxY20a--") =
      Except.ok (some (HeaderName.IfMatch, "_ZxY20a--")) :=
  ⟨by decide, (make_header_maps_conditional_choice "_ZxY20a--" (by decide)).1⟩

/-- Claim C3, counterexample: the resolver is not total — at
`IfNoneMatch "\x00"` the revision string contains a forbidden byte and the
`unwrap` of `HeaderValue::try_from` panics instead of returning a pair. -/
theorem make_header_not_total :
    make_header_from_options (DocumentReadOptions.IfNoneMatch "\x00") =
      Except.error RustPanic.panicked := by
  rfl

/-- Claim C3 (amended): the resolver never fails on read options whose
revision string consists of valid header-value bytes (horizontal tab or
bytes 32 to 255 other than 127); on other revision strings it panics. -/
theorem make_header_total_on_valid_revs (o : DocumentReadOptions)
    (h : readOptionsRevValid o = true) :
    (make_header_from_options o).isOk = true := by
  cases o with
  | IfMatch v =>
      have := (make_header_eq_of_valid v (by simpa [readOptionsRevValid] using h)).1
      simp [this, Except.isOk, Except.toBool]
  | IfNoneMatch v =>
      have := (make_header_eq_of_valid v (by simpa [readOptionsRevValid] using h)).2.1
      simp [this, Except.isOk, Except.toBool]
  | NoHeader => rfl

/-- Claim C3, witness at a concrete revision. -/
theorem make_header_total_on_valid_revs_witness :
    readOptionsRevValid (DocumentReadOptions.IfNoneMatch "abc123_-") = true ∧
    (make_header_from_options (DocumentReadOptions.IfNoneMatch "abc123_-")).isOk = true :=
  ⟨by decide, make_header_total_on_valid_revs (DocumentReadOptions.IfNoneMatch "abc123_-")
    (by decide)⟩

/-- Helper: `headerValueTryFrom` passes the string through verbatim. -/
theorem headerValueTryFrom_eq {v w : String} (h : headerValueTryFrom v = some w) : w = v := by
  unfold headerValueTryFrom at h
  split at h
  · exact (Option.some.injEq _ _ ▸ h).symm
  · exact absurd h (by simp)

/-- Claim C4 (code bug): the request built by `read_document_header` for a
concrete key is a GET, not the HEAD-equivalent the specification and the
function's own documentation describe; the conditional headers are the
same resolver output as for a full read. -/
theorem read_document_header_request_is_get :
    (read_document_header sampleColl "k1").requestOf =
      some (okOr (readDocHeaderRequest sampleColl "k1" DocumentReadOptions.NoHeader)
        fallbackRequest) ∧
    (okOr (readDocHeaderRequest sampleColl "k1" DocumentReadOptions.NoHeader)
      fallbackRequest).method = Method.GET ∧
    Method.GET ≠ Method.HEAD :=
  ⟨rfl, rfl, by decide⟩

/-- Claim C5: whenever `replace_document` or `remove_document` builds a
wire request, that request carries the `If-Match` header exactly when the
explicit `if_match_header` argument is present, with exactly the supplied
revision as value, independent of the payload body. -/
theorem replace_remove_if_match_iff_supplied :
    (∀ (c : Collection) (key : String) (doc : Json) (o : DocumentReplaceOptions)
        (ifm : Option String) (req : HttpRequest),
        replaceDocRequest c key doc o ifm = Except.ok req →
        req.headers = ifMatchHeaders ifm) ∧
    (∀ (c : Collection) (key : String) (o : DocumentRemoveOptions)
        (ifm : Option String) (req : HttpRequest),
        removeDocRequest c key o ifm = Except.ok req →
        req.headers = ifMatchHeaders ifm) ∧
    (∀ (c : Collection) (key : String) (doc doc' : Json) (o : DocumentReplaceOptions)
        (ifm : Option String),
        (replaceDocRequest c key doc o ifm).map HttpRequest.headers =
          (replaceDocRequest c key doc' o ifm).map HttpRequest.headers) := by
  have hn : headerNameFromStr "If-Match" = some HeaderName.IfMatch := by decide
  refine ⟨?_, ?_, ?_⟩
  · intro c key doc o ifm req h
    cases ifm with
    | none =>
        simp [replaceDocRequest, bind, Except.bind, pure, Except.pure] at h
        simp [← h, ifMatchHeaders]
    | some v =>
        cases hv : headerValueTryFrom v with
        | none =>
            simp [replaceDocRequest, hn, hv, unwrapO, bind, Except.bind, pure, Except.pure] at h
        | some w =>
            have hw := headerValueTryFrom_eq hv
            simp [replaceDocRequest, hn, hv, unwrapO, bind, Except.bind, pure, Except.pure] at h
            simp [← h, ifMatchHeaders, hw]
  · intro c key o ifm req h
    cases ifm with
    | none =>
        simp [removeDocRequest, bind, Except.bind, pure, Except.pure] at h
        simp [← h, ifMatchHeaders]
    | some v =>
        cases hv : headerValueTryFrom v with
        | none =>
            simp [removeDocRequest, hn, hv, unwrapO, bind, Except.bind, pure, Except.pure] at h
        | some w =>
            have hw := headerValueTryFrom_eq hv
            simp [removeDocRequest, hn, hv, unwrapO, bind, Except.bind, pure, Except.pure] at h
            simp [← h, ifMatchHeaders, hw]
  · intro c key doc doc' o ifm
    cases ifm with
    | none => rfl
    | some v =>
        cases hv : headerValueTryFrom v <;>
          simp [replaceDocRequest, hn, hv, unwrapO, bind, Except.bind, pure, Except.pure,
            Except.map]

/-- Claim C5, witness: with a concrete supplied revision the built request
carries exactly that `If-Match` value. -/
theorem replace_remove_if_match_iff_supplied_witness :
    replaceDocRequest sampleColl "k1" (Json.obj []) {} (some "rev-77") =
      Except.ok (okOr (replaceDocRequest sampleColl "k1" (Json.obj []) {} (some "rev-77"))
        fallbackRequest) ∧
    (okOr (replaceDocRequest sampleColl "k1" (Json.obj []) {} (some "rev-77"))
      fallbackRequest).headers = [(HeaderName.IfMatch, "rev-77")] :=
  ⟨rfl, replace_remove_if_match_iff_supplied.1 sampleColl "k1" (Json.obj []) {}
    (some "rev-77") _ rfl⟩

/-- Claim C6: the wire request issued by `update_document` is the built
PATCH request, and its body is exactly the serialization of the patch
argument the caller passed — never the full document; the payload is a
value the builder returns unchanged. -/
theorem update_document_sends_exactly_the_patch :
    ∀ (c : Collection) (key : String) (doc : Json) (o : DocumentUpdateOptions),
      (update_document c key doc o).requestOf = some (updateDocRequest c key doc o) ∧
      (updateDocRequest c key doc o).body = some doc :=
  fun _ _ _ _ => ⟨rfl, rfl⟩

/-- Claim C7: every document operation that reaches the transport performs
exactly one transport call, whatever the transport answers — no retries
and no additional round trips. -/
theorem each_operation_one_transport_call :
    (∀ (c : Collection) (doc : Json) (o : DocumentInsertOptions) (t : Transport),
        (create_document c doc o).requestCount t = 1) ∧
    (∀ (c : Collection) (key : String) (t : Transport),
        (read_document c key).requestCount t = 1) ∧
    (∀ (c : Collection) (key : String) (o : DocumentReadOptions) (t : Transport),
        (read_document_with_options c key o).isPanicked = false →
        (read_document_with_options c key o).requestCount t = 1) ∧
    (∀ (c : Collection) (key : String) (t : Transport),
        (read_document_header c key).requestCount t = 1) ∧
    (∀ (c : Collection) (key : String) (o : DocumentReadOptions) (t : Transport),
        (read_document_header_with_options c key o).isPanicked = false →
        (read_document_header_with_options c key o).requestCount t = 1) ∧
    (∀ (c : Collection) (key : String) (doc : Json) (o : DocumentUpdateOptions) (t : Transport),
        (update_document c key doc o).requestCount t = 1) ∧
    (∀ (c : Collection) (key : String) (doc : Json) (o : DocumentReplaceOptions)
        (ifm : Option String) (t : Transport),
        (replace_document c key doc o ifm).isPanicked = false →
        (replace_document c key doc o ifm).requestCount t = 1) ∧
    (∀ (c : Collection) (key : String) (o : DocumentRemoveOptions)
        (ifm : Option String) (t : Transport),
        (remove_document c key o ifm).isPanicked = false →
        (remove_document c key o ifm).requestCount t = 1) := by
  refine ⟨fun c doc o t => rfl, fun c key t => rfl, ?_, fun c key t => rfl, ?_,
    fun c key doc o t => rfl, ?_, ?_⟩
  · intro c key o t h
    cases hb : readDocRequest c key o with
    | error p => simp [read_document_with_options, hb, ClientM.isPanicked] at h
    | ok req => simp [read_document_with_options, hb, ClientM.requestCount]
  · intro c key o t h
    cases hb : readDocHeaderRequest c key o with
    | error p => simp [read_document_header_with_options, hb, ClientM.isPanicked] at h
    | ok req => simp [read_document_header_with_options, hb, ClientM.requestCount]
  · intro c key doc o ifm t h
    cases hb : replaceDocRequest c key doc o ifm with
    | error p => simp [replace_document, hb, ClientM.isPanicked] at h
    | ok req => simp [replace_document, hb, ClientM.requestCount]
  · intro c key o ifm t h
    cases hb : removeDocRequest c key o ifm with
    | error p => simp [remove_document, hb, ClientM.isPanicked] at h
    | ok req => simp [remove_document, hb, ClientM.requestCount]

/-- Claim C7, witness: a concrete replace invocation does not panic and
performs exactly one transport call. -/
theorem each_operation_one_transport_call_witness :
    (replace_document sampleColl "k1" (Json.obj []) {} (some "rev-1")).isPanicked = false ∧
    (replace_document sampleColl "k1" (Json.obj []) {} (some "rev-1")).requestCount
      (constTransport 202 none) = 1 :=
  ⟨rfl, each_operation_one_transport_call.2.2.2.2.2.2.1 sampleColl "k1" (Json.obj []) {}
    (some "rev-1") (constTransport 202 none) rfl⟩

/-- Helper: rendering one boolean option field agrees with filtering the
field descriptor against its default. -/
theorem emitBool_eq_nonDefault (k : String) (d : Bool) (v : Option Bool) :
    emitBool k d v = nonDefaultFields [(k, v.map boolStr, boolStr d)] := by
  cases v with
  | none => rfl
  | some b => cases b <;> cases d <;> rfl

/-- Helper: rendering the overwrite-mode field agrees with filtering its
descriptor against the default mode. -/
theorem emitMode_eq_nonDefault (v : Option DocumentOverwriteMode) :
    emitMode v = nonDefaultFields [("overwriteMode", v.map overwriteModeStr, "conflict")] := by
  cases v with
  | none => rfl
  | some m => cases m <;> rfl

/-- Helper: filtering non-default fields distributes over list append. -/
theorem nonDefaultFields_append (xs ys : List FieldDesc) :
    nonDefaultFields (xs ++ ys) = nonDefaultFields xs ++ nonDefaultFields ys := by
  simp [nonDefaultFields, List.filterMap_append]

/-- Helper: a field table of two or more fields filters headfirst. -/
theorem nonDefaultFields_cons₂ (x y : FieldDesc) (xs : List FieldDesc) :
    nonDefaultFields (x :: y :: xs) = nonDefaultFields [x] ++ nonDefaultFields (y :: xs) := by
  rw [show (x :: y :: xs) = [x] ++ (y :: xs) from rfl, nonDefaultFields_append]

/-- Claim C8: for every option configuration of the four write shapes, the
query pairs the request builder puts on the URL are exactly the fields
whose values differ from the documented server defaults, one query key per
field, with every absent or default-valued field omitted. -/
theorem query_exactly_non_default_fields :
    (∀ (c : Collection) (doc : Json) (o : DocumentInsertOptions),
        (createDocRequest c doc o).query = qsInsert o) ∧
    (∀ o : DocumentInsertOptions, qsInsert o = nonDefaultFields (insertFieldTable o)) ∧
    (∀ (c : Collection) (key : String) (doc : Json) (o : DocumentUpdateOptions),
        (updateDocRequest c key doc o).query = qsUpdate o) ∧
    (∀ o : DocumentUpdateOptions, qsUpdate o = nonDefaultFields (updateFieldTable o)) ∧
    (∀ o : DocumentReplaceOptions, qsReplace o = nonDefaultFields (replaceFieldTable o)) ∧
    (∀ o : DocumentRemoveOptions, qsRemove o = nonDefaultFields (removeFieldTable o)) := by
  refine ⟨fun _ _ _ => rfl, ?_, fun _ _ _ _ => rfl, ?_, ?_, ?_⟩ <;> intro o <;>
    simp only [qsInsert, insertFieldTable, qsUpdate, updateFieldTable, qsReplace,
      replaceFieldTable, qsRemove, removeFieldTable, emitBool_eq_nonDefault,
      emitMode_eq_nonDefault, boolStr, nonDefaultFields_cons₂, List.append_assoc]

/-- Claim C9: on a successful wire response, every write operation invoked
with `silent = true` yields the `Silent` variant regardless of the other
flags, and the `Silent` variant exposes no header, old or new fields; the
`Silent` and verbose variants are mutually exclusive. -/
theorem silent_write_returns_silent_variant :
    (∀ (c : Collection) (doc : Json) (o : DocumentInsertOptions) (status : Nat)
        (body : Option Json), o.silent = some true → status < 400 →
        (create_document c doc o).run (constTransport status body) =
          some (Except.ok DocumentResponse.Silent)) ∧
    (∀ (c : Collection) (key : String) (doc : Json) (o : DocumentUpdateOptions)
        (status : Nat) (body : Option Json), o.silent = some true → status < 400 →
        (update_document c key doc o).run (constTransport status body) =
          some (Except.ok DocumentResponse.Silent)) ∧
    (∀ (c : Collection) (key : String) (doc : Json) (o : DocumentReplaceOptions)
        (ifm : Option String) (status : Nat) (body : Option Json),
        o.silent = some true → status < 400 →
        (replace_document c key doc o ifm).isPanicked = false →
        (replace_document c key doc o ifm).run (constTransport status body) =
          some (Except.ok DocumentResponse.Silent)) ∧
    (∀ (c : Collection) (key : String) (o : DocumentRemoveOptions)
        (ifm : Option String) (status : Nat) (body : Option Json),
        o.silent = some true → status < 400 →
        (remove_document c key o ifm).isPanicked = false →
        (remove_document c key o ifm).run (constTransport status body) =
          some (Except.ok DocumentResponse.Silent)) ∧
    (∀ dr : DocumentResponse, dr.is_silent = true ↔ dr.has_response = false) ∧
    DocumentResponse.Silent.get_response = none := by
  refine ⟨?_, ?_, ?_, ?_, ?_, rfl⟩
  · intro c doc o status body h1 h2
    have hlt : ¬ (400 ≤ status) := Nat.not_le.mpr h2
    simp [create_document, ClientM.run, constTransport, deserializeWrite,
      DocumentInsertOptions.silentFlag, h1, hlt]
  · intro c key doc o status body h1 h2
    have hlt : ¬ (400 ≤ status) := Nat.not_le.mpr h2
    simp [update_document, ClientM.run, constTransport, deserializeWrite,
      DocumentUpdateOptions.silentFlag, h1, hlt]
  · intro c key doc o ifm status body h1 h2 hp
    have hlt : ¬ (400 ≤ status) := Nat.not_le.mpr h2
    cases hb : replaceDocRequest c key doc o ifm with
    | error p => simp [replace_document, hb, ClientM.isPanicked] at hp
    | ok req =>
        simp [replace_document, hb, ClientM.run, constTransport, deserializeWrite,
          DocumentReplaceOptions.silentFlag, h1, hlt]
  · intro c key o ifm status body h1 h2 hp
    have hlt : ¬ (400 ≤ status) := Nat.not_le.mpr h2
    cases hb : removeDocRequest c key o ifm with
    | error p => simp [remove_document, hb, ClientM.isPanicked] at hp
    | ok req =>
        simp [remove_document, hb, ClientM.run, constTransport, deserializeWrite,
          DocumentRemoveOptions.silentFlag, h1, hlt]
  · intro dr
    cases dr <;> simp [DocumentResponse.is_silent, DocumentResponse.has_response]

/-- Claim C9, witness: a concrete silent create against a 201 response
yields the Silent variant. -/
theorem silent_write_returns_silent_variant_witness :
    ({ silent := some true } : DocumentInsertOptions).silent = some true ∧
    (201 : Nat) < 400 ∧
    (create_document sampleColl Json.null { silent := some true }).run
      (constTransport 201 none) = some (Except.ok DocumentResponse.Silent) :=
  ⟨rfl, by decide,
    silent_write_returns_silent_variant.1 sampleColl Json.null { silent := some true }
      201 none rfl (by decide)⟩

/-- Claim C1: every wire response with status at least 400 makes each
document operation return an error, never a success value; a parsed error
envelope maps 412 to `PreconditionFailed`, 404 to `NotFound`, and any
other status to `ServerError(code, message)`, while a body that does not
parse as an error envelope yields `MalformedResponse`. -/
theorem doc_ops_error_on_failure_status :
    (∀ (status : Nat) (body : Option Json), 400 ≤ status →
      (∀ env : ErrorEnvelope, parseErrorEnvelope body = some env →
        classifyFailure status body =
          (if status = 412 then ClientError.PreconditionFailed
           else if status = 404 then ClientError.NotFound
           else ClientError.ServerError env.code env.errorMessage)) ∧
      (parseErrorEnvelope body = none →
        classifyFailure status body = ClientError.MalformedResponse)) ∧
    (∀ (c : Collection) (doc : Json) (o : DocumentInsertOptions) (status : Nat)
        (body : Option Json), 400 ≤ status →
        (create_document c doc o).run (constTransport status body) =
          some (Except.error (classifyFailure status body))) ∧
    (∀ (c : Collection) (key : String) (status : Nat) (body : Option Json),
        400 ≤ status →
        (read_document c key).run (constTransport status body) =
          some (Except.error (classifyFailure status body))) ∧
    (∀ (c : Collection) (key : String) (o : DocumentReadOptions) (status : Nat)
        (body : Option Json), 400 ≤ status →
        (read_document_with_options c key o).isPanicked = false →
        (read_document_with_options c key o).run (constTransport status body) =
          some (Except.error (classifyFailure status body))) ∧
    (∀ (c : Collection) (key : String) (status : Nat) (body : Option Json),
        400 ≤ status →
        (read_document_header c key).run (constTransport status body) =
          some (Except.error (classifyFailure status body))) ∧
    (∀ (c : Collection) (key : String) (o : DocumentReadOptions) (status : Nat)
        (body : Option Json), 400 ≤ status →
        (read_document_header_with_options c key o).isPanicked = false →
        (read_document_header_with_options c key o).run (constTransport status body) =
          some (Except.error (classifyFailure status body))) ∧
    (∀ (c : Collection) (key : String) (doc : Json) (o : DocumentUpdateOptions)
        (status : Nat) (body : Option Json), 400 ≤ status →
        (update_document c key doc o).run (constTransport status body) =
          some (Except.error (classifyFailure status body))) ∧
    (∀ (c : Collection) (key : String) (doc : Json) (o : DocumentReplaceOptions)
        (ifm : Option String) (status : Nat) (body : Option Json), 400 ≤ status →
        (replace_document c key doc o ifm).isPanicked = false →
        (replace_document c key doc o ifm).run (constTransport status body) =
          some (Except.error (classifyFailure status body))) ∧
    (∀ (c : Collection) (key : String) (o : DocumentRemoveOptions)
        (ifm : Option String) (status : Nat) (body : Option Json), 400 ≤ status →
        (remove_document c key o ifm).isPanicked = false →
        (remove_document c key o ifm).run (constTransport status body) =
          some (Except.error (classifyFailure status body))) := by
  refine ⟨?_, ?_, ?_, ?_, ?_, ?_, ?_, ?_, ?_⟩
  · intro status body h400
    constructor
    · intro env henv
      simp [classifyFailure, henv]
    · intro hnone
      simp [classifyFailure, hnone]
  · intro c doc o status body h400
    simp [create_document, ClientM.run, constTransport, deserializeWrite, h400]
  · intro c key status body h400
    simp [read_document, read_document_with_options, readDocRequest,
      make_header_from_options, pure, Except.pure, bind, Except.bind, ClientM.run,
      constTransport, deserializeRead, h400]
  · intro c key o status body h400 hp
    cases hb : readDocRequest c key o with
    | error p => simp [read_document_with_options, hb, ClientM.isPanicked] at hp
    | ok req =>
        simp [read_document_with_options, hb, ClientM.run, constTransport,
          deserializeRead, h400]
  · intro c key status body h400
    simp [read_document_header, read_document_header_with_options, readDocHeaderRequest,
      make_header_from_options, pure, Except.pure, bind, Except.bind, ClientM.run,
      constTransport, deserializeHeader, h400]
  · intro c key o status body h400 hp
    cases hb : readDocHeaderRequest c key o with
    | error p => simp [read_document_header_with_options, hb, ClientM.isPanicked] at hp
    | ok req =>
        simp [read_document_header_with_options, hb, ClientM.run, constTransport,
          deserializeHeader, h400]
  · intro c key doc o status body h400
    simp [update_document, ClientM.run, constTransport, deserializeWrite, h400]
  · intro c key doc o ifm status body h400 hp
    cases hb : replaceDocRequest c key doc o ifm with
    | error p => simp [replace_document, hb, ClientM.isPanicked] at hp
    | ok req =>
        simp [replace_document, hb, ClientM.run, constTransport, deserializeWrite, h400]
  · intro c key o ifm status body h400 hp
    cases hb : removeDocRequest c key o ifm with
    | error p => simp [remove_document, hb, ClientM.isPanicked] at hp
    | ok req =>
        simp [remove_document, hb, ClientM.run, constTransport, deserializeWrite, h400]

/-- Claim C1, witness: against a concrete 404 error envelope a create
returns the `NotFound` error. -/
theorem doc_ops_error_on_failure_status_witness :
    (400 ≤ 404 ∧
      (create_document sampleColl Json.null {}).run
        (constTransport 404 (some sampleEnvelope)) =
        some (Except.error (classifyFailure 404 (some sampleEnvelope)))) ∧
    classifyFailure 404 (some sampleEnvelope) = ClientError.NotFound ∧
    classifyFailure 412 (some sampleEnvelope) = ClientError.PreconditionFailed ∧
    classifyFailure 409 (some sampleEnvelope) =
      ClientError.ServerError 404 "document not found" ∧
    classifyFailure 500 none = ClientError.MalformedResponse :=
  ⟨⟨by decide, doc_ops_error_on_failure_status.2.1 sampleColl Json.null {} 404
      (some sampleEnvelope) (by decide)⟩, by decide, by decide, by decide, rfl⟩

/-- Claim C10: `rename` is atomic with respect to the collection's local
state — whenever the transport call or the response deserialization fails,
the stored name keeps its previous value, and the name becomes the new one
exactly when the call succeeds. -/
theorem rename_keeps_name_unless_success :
    ∀ (c : Collection) (name : String) (t : Transport),
      ((renameRun c name t).2.isOk = false → (renameRun c name t).1.name = c.name) ∧
      ((renameRun c name t).2.isOk = true → (renameRun c name t).1.name = name) := by
  intro c name t
  cases ht : t (renameRequest c name) with
  | error e =>
      refine ⟨fun _ => ?_, fun h => ?_⟩
      · simp [renameRun, rename, ClientM.run, ht]
      · exfalso
        simp [renameRun, rename, ClientM.run, ht, Except.isOk, Except.toBool] at h
  | ok resp =>
      cases hd : deserializeCollectionInfo resp with
      | error e =>
          refine ⟨fun _ => ?_, fun h => ?_⟩
          · simp [renameRun, rename, ClientM.run, ht, hd]
          · exfalso
            simp [renameRun, rename, ClientM.run, ht, hd, Except.isOk, Except.toBool] at h
      | ok info =>
          refine ⟨fun h => ?_, fun _ => ?_⟩
          · exfalso
            simp [renameRun, rename, ClientM.run, ht, hd, Except.isOk, Except.toBool] at h
          · simp [renameRun, rename, ClientM.run, ht, hd]

/-- Claim C10, witness: a failing transport leaves the concrete
collection's name unchanged, and a successful rename sets it. -/
theorem rename_keeps_name_unless_success_witness :
    (renameRun sampleColl "c2"
        (fun _ => Except.error (ClientError.ServerError 503 "down"))).2.isOk = false ∧
    (renameRun sampleColl "c2"
        (fun _ => Except.error (ClientError.ServerError 503 "down"))).1.name =
      sampleColl.name ∧
    (renameRun sampleColl "c2"
        (constTransport 200 (some (Json.obj [("id", Json.str "9999"),
          ("name", Json.str "c2")])))).2.isOk = true ∧
    (renameRun sampleColl "c2"
        (constTransport 200 (some (Json.obj [("id", Json.str "9999"),
          ("name", Json.str "c2")])))).1.name = "c2" :=
  ⟨rfl,
    (rename_keeps_name_unless_success sampleColl "c2"
      (fun _ => Except.error (ClientError.ServerError 503 "down"))).1 rfl,
    rfl,
    (rename_keeps_name_unless_success sampleColl "c2"
      (constTransport 200 (some (Json.obj [("id", Json.str "9999"),
        ("name", Json.str "c2")])))).2 rfl⟩

end Arangors
